import Mathlib

/-!
# Verification of the QA framework generator's test-execution backend

Shallow embedding of `server.js` (the `/api/run-tests` pipeline): file
materialization path resolution, language detection, the Python (pytest) and
C# (dotnet) execution pipelines with their streamed event traces, report
normalization for the pytest JSON artifact and the TRX XML artifact, and the
TRX duration parser.

JavaScript strings are modelled as Lean `String`; where the code relies on
JS truthiness (`x || y` falling through on `0`, `""`, `null`/`undefined`)
the fallthrough is modelled explicitly.  JS numbers occurring here are JSON
numbers (counts as `Int`, durations as `Rat`); `NaN` produced by the TRX
duration parser is modelled as `none` in an `Option Rat`.
-/

/-- Boolean string-prefix test on character lists (JS `String.startsWith`,
with the prefix as first argument). -/
def isPrefixOfB : List Char → List Char → Bool
  | [], _ => true
  | _ :: _, [] => false
  | a :: as, b :: bs => a == b && isPrefixOfB as bs

/-- Boolean string-suffix test on character lists (JS `String.endsWith`,
with the suffix as first argument). -/
def isSuffixOfB (a b : List Char) : Bool :=
  isPrefixOfB a.reverse b.reverse

/-- Boolean substring test on character lists (JS `String.includes`, with the
needle as first argument). -/
def isInfixOfB (a : List Char) : List Char → Bool
  | [] => a.isEmpty
  | b :: bs => isPrefixOfB a (b :: bs) || isInfixOfB a bs

/-- JS `haystack.endsWith(needle)`. -/
def strEndsWith (s suffix : String) : Bool := isSuffixOfB suffix.data s.data

/-- JS `haystack.includes(needle)`. -/
def strIncludes (s sub : String) : Bool := isInfixOfB sub.data s.data

/-- JS `haystack.startsWith(needle)`. -/
def strStartsWithB (s pre : String) : Bool := isPrefixOfB pre.data s.data

/-- JS `String.toLowerCase` (ASCII case folding, which covers every marker
string the server compares against). -/
def strLower (s : String) : String := ⟨s.data.map Char.toLower⟩

/-- One entry of the request's file manifest (`{name, path, content}`). -/
structure FileEntry where
  name : String
  path : String
  content : String
deriving DecidableEq, Repr

/-- `detectLanguage`'s C# predicate over one file (server.js:843-848):
lowercased name ends with `.csproj`, or lowercased `path + name` contains
`.csproj`, or lowercased name ends with `.cs`, or lowercased `path + name`
ends with `.cs`. -/
def fileHasCSharpMarker (f : FileEntry) : Bool :=
  let n := strLower f.name
  let p := strLower f.path
  let full := p ++ n
  strEndsWith n ".csproj" || strIncludes full ".csproj" ||
    strEndsWith n ".cs" || strEndsWith full ".cs"

/-- `detectLanguage`'s Python predicate over one file (server.js:851-856). -/
def fileHasPythonMarker (f : FileEntry) : Bool :=
  let n := strLower f.name
  let p := strLower f.path
  let full := strLower (p ++ n)
  strEndsWith n ".py" || strEndsWith full ".py" ||
    n == "requirements.txt" || strIncludes full "requirements.txt"

/-- `detectLanguage(files)` (server.js:842-860): C# markers win over Python
markers; anything else falls back to `"python"`. -/
def detectLanguage (files : List FileEntry) : String :=
  if files.any fileHasCSharpMarker then "csharp"
  else if files.any fileHasPythonMarker then "python"
  else "python"

/-- Drop leading occurrences of a character. -/
def dropLeadChar (c : Char) : List Char → List Char
  | [] => []
  | x :: xs => if x == c then dropLeadChar c xs else x :: xs

/-- `(file.path || '').replace(/^\/+|\/+$/g, '')` — strip leading and
trailing slashes (server.js:890). -/
def cleanPath (p : String) : String :=
  ⟨(dropLeadChar '/' (dropLeadChar '/' p.data.reverse).reverse)⟩

/-- Split a character list on a separator character, JS
`String.prototype.split` style (empty segments preserved). -/
def splitOnChar (c : Char) : List Char → List (List Char)
  | [] => [[]]
  | x :: xs =>
    if x == c then [] :: splitOnChar c xs
    else
      match splitOnChar c xs with
      | [] => [[x]]
      | y :: ys => (x :: y) :: ys

/-- Join segments with a separator character, JS `Array.prototype.join`. -/
def joinWithChar (c : Char) : List (List Char) → List Char
  | [] => []
  | [x] => x
  | x :: xs => x ++ c :: joinWithChar c xs

/-- Node `path.join(a, b)` restricted to the already-cleaned relative
segments the server passes it (no `.`/`..` normalization is exercised):
empty components are skipped, otherwise the parts are joined with `/`. -/
def jsJoin (a b : String) : String :=
  if a = "" then b else if b = "" then a else a ++ "/" ++ b

/-- Directory part embedded in a file name: everything before the last `/`
(the `parts.join('/')` after `parts.pop()`, server.js:894-896). -/
def nameDirPart (name : String) : String :=
  ⟨joinWithChar '/' (splitOnChar '/' name.data).dropLast⟩

/-- Trailing segment of a file name: everything after the last `/`
(the `parts.pop()`, server.js:895). -/
def nameBasePart (name : String) : String :=
  ⟨((splitOnChar '/' name.data).getLastD [])⟩

/-- Path resolution of the file-materialization loop (server.js:887-908),
as the final path relative to the temp directory.  When the name embeds a
path: the name's directory wins if `path` is empty, equal to it, or a
string prefix of it; otherwise the two are joined. -/
def resolveEntryPath (name path : String) : String :=
  let filePath := cleanPath path
  if strIncludes name "/" then
    let fileName := nameBasePart name
    let fileNamePath := nameDirPart name
    let filePath' :=
      if filePath = "" || filePath == fileNamePath ||
          strStartsWithB fileNamePath filePath then fileNamePath
      else jsJoin filePath fileNamePath
    jsJoin filePath' fileName
  else jsJoin filePath name

/-! ## Report artifacts and normalization -/

/-- JS string fallback `a || b` (empty string is falsy). -/
def jsStrOr (a b : String) : String := if a = "" then b else a

/-- JS `x || y` on two possibly-undefined numbers with final default `0`
(`t.call?.duration || t.setup?.duration || 0`): `undefined` and `0` are
falsy. -/
def jsNumFallback (x y : Option Rat) : Rat :=
  match x with
  | some a => if a = 0 then (match y with | some b => b | none => 0) else a
  | none => match y with | some b => b | none => 0

/-- JS `x || y || null` on two possibly-undefined strings
(`t.call?.longrepr || t.setup?.longrepr || null`): `undefined` and `""`
are falsy, and a falsy result lands on `null`. -/
def jsStrFallbackNull (x y : Option String) : Option String :=
  match x with
  | some a =>
    if a = "" then
      (match y with
       | some b => if b = "" then none else some b
       | none => none)
    else some a
  | none =>
    match y with
    | some b => if b = "" then none else some b
    | none => none

/-- JS `x || null` on one possibly-undefined string
(`t.call?.stdout || null`). -/
def jsStrOrNull (x : Option String) : Option String :=
  match x with
  | some a => if a = "" then none else some a
  | none => none

/-- One phase record (`setup`/`call`/`teardown`) of a pytest-json-report
per-test entry; every field the server reads, each possibly absent. -/
structure PytestPhase where
  duration : Option Rat
  outcome : Option String
  longrepr : Option String
  stdout : Option String
  stderr : Option String
deriving DecidableEq, Repr

/-- One per-test record of the pytest JSON artifact. -/
structure PytestTest where
  nodeid : String
  outcome : String
  setup : Option PytestPhase
  call : Option PytestPhase
  teardown : Option PytestPhase
deriving DecidableEq, Repr

/-- The `summary` object of the pytest JSON artifact; each aggregate field
possibly absent. -/
structure PytestSummary where
  total : Option Int
  passed : Option Int
  failed : Option Int
  error : Option Int
  skipped : Option Int
deriving DecidableEq, Repr

/-- The parsed pytest JSON artifact, with every top-level field the server
reads possibly absent. -/
structure PytestReport where
  summary : Option PytestSummary
  tests : Option (List PytestTest)
  duration : Option Rat
  environment : Option (List (String × String))
  created : Option String
deriving DecidableEq, Repr

/-- Normalized summary part of the `report` event payload. -/
structure NormSummary where
  total : Int
  passed : Int
  failed : Int
  error : Int
  skipped : Int
  duration : Option Rat
deriving DecidableEq, Repr

/-- Normalized per-test part of the `report` event payload (the C# path
leaves `setup`/`call`/`teardown` at `null`).  `duration = none` models a
`NaN` produced by the TRX duration parser. -/
structure NormTest where
  nodeid : String
  outcome : String
  duration : Option Rat
  setup : Option String
  call : Option String
  teardown : Option String
  error : Option String
  stdout : Option String
  stderr : Option String
deriving DecidableEq, Repr

/-- The normalized report payload sent in the `report` event. -/
structure NormReport where
  summary : NormSummary
  tests : List NormTest
  environment : List (String × String)
  created : Option String
deriving DecidableEq, Repr

/-- Per-test mapping of the pytest close handler (server.js:1094-1104). -/
def mapPytestTest (t : PytestTest) : NormTest :=
  { nodeid := t.nodeid
    outcome := t.outcome
    duration := some (jsNumFallback (t.call.bind (·.duration)) (t.setup.bind (·.duration)))
    setup := t.setup.bind (·.outcome)
    call := t.call.bind (·.outcome)
    teardown := t.teardown.bind (·.outcome)
    error := jsStrFallbackNull (t.call.bind (·.longrepr)) (t.setup.bind (·.longrepr))
    stdout := jsStrOrNull (t.call.bind (·.stdout))
    stderr := jsStrOrNull (t.call.bind (·.stderr)) }

/-- The `report` event payload built by the pytest close handler
(server.js:1085-1107): each summary count is `report.summary?.X || 0`,
the tests are `(report.tests || []).map(...)`. -/
def normalizePytestReport (r : PytestReport) : NormReport :=
  { summary :=
      { total := (r.summary.bind (·.total)).getD 0
        passed := (r.summary.bind (·.passed)).getD 0
        failed := (r.summary.bind (·.failed)).getD 0
        error := (r.summary.bind (·.error)).getD 0
        skipped := (r.summary.bind (·.skipped)).getD 0
        duration := some ((r.duration).getD 0) }
    tests := (r.tests.getD []).map mapPytestTest
    environment := (r.environment).getD []
    created := r.created }

/-! ## TRX report parsing -/

/-- Numeric value of a nonempty all-digit character list, else `none`. -/
def digitsVal : List Char → Option Nat
  | [] => none
  | l => l.foldl (fun acc c => do
      let a ← acc
      if c.isDigit then some (a * 10 + (c.toNat - '0'.toNat)) else none)
      (some 0)

/-- JS `parseFloat` restricted to the plain unsigned decimal literals the
TRX duration fields contain (`digits`, `digits.digits`, `digits.`,
`.digits`); anything else is `NaN`, modelled as `none`. -/
def parseFloatL (l : List Char) : Option Rat :=
  match splitOnChar '.' l with
  | [ip] => (digitsVal ip).map (fun n => (n : Rat))
  | [ip, fp] =>
    match digitsVal ip, digitsVal fp with
    | some i, some f => some ((i : Rat) + (f : Rat) / (10 : Rat) ^ fp.length)
    | some i, none => if fp.isEmpty then some (i : Rat) else none
    | none, some f =>
      if ip.isEmpty then some ((f : Rat) / (10 : Rat) ^ fp.length) else none
    | none, none => none
  | _ => none

/-- `parseDuration` (server.js:1343-1352): split on `:`; with exactly three
parts return `hours*3600 + minutes*60 + seconds` (NaN-propagating, so a
non-numeric part yields `none`); otherwise `0`. -/
def parseDuration (s : String) : Option Rat :=
  match (splitOnChar ':' s.data).map parseFloatL with
  | [some h, some m, some sec] => some (h * 3600 + m * 60 + sec)
  | [_, _, _] => none
  | _ => some 0

/-- Attribute values of the TRX `Counters` element, in the order the
extraction regex captures them (server.js:1289). -/
structure TrxCounters where
  total : Nat
  executed : Nat
  passed : Nat
  failed : Nat
  error : Nat
  timeout : Nat
  aborted : Nat
  inconclusive : Nat
  passedButRunAborted : Nat
  notRunnable : Nat
  notExecuted : Nat
  disconnected : Nat
  warning : Nat
  completed : Nat
  inProgress : Nat
  pending : Nat
deriving DecidableEq, Repr

/-- One `UnitTestResult` element as the extraction regexes see it:
`testName`, `outcome` and `duration` attributes, plus the `<Message>` text
found by the per-test message regex when one exists (server.js:1299-1315). -/
structure TrxUnitResult where
  testName : String
  outcome : String
  durationStr : String
  message : Option String
deriving DecidableEq, Repr

/-- The TRX document abstracted to what the extraction regexes of
`parseTrxReport` recover: the `Counters` element when the counters regex
matches, and the `UnitTestResult` elements in document order. -/
structure TrxData where
  counters : Option TrxCounters
  results : List TrxUnitResult
deriving DecidableEq, Repr

/-- NaN-propagating addition for the `totalDuration += duration`
accumulation. -/
def nanAdd (a b : Option Rat) : Option Rat := do pure ((← a) + (← b))

/-- JS trim restricted to spaces and newlines (the whitespace appearing in
TRX `<Message>` bodies). -/
def strTrim (s : String) : String :=
  let ws : Char → Bool := fun c => c == ' ' || c == '\n' || c == '\r' || c == '\t'
  ⟨((s.data.dropWhile ws).reverse.dropWhile ws).reverse⟩

/-- Per-result mapping of `parseTrxReport` (server.js:1302-1325). -/
def mapTrxResult (u : TrxUnitResult) : NormTest :=
  { nodeid := u.testName
    outcome := strLower u.outcome
    duration := parseDuration u.durationStr
    setup := none
    call := none
    teardown := none
    error := (u.message).map strTrim
    stdout := none
    stderr := none }

/-- `parseTrxReport` over the regex-extracted data (server.js:1282-1340):
summary counts come from the `Counters` attributes when that regex matched
(`skipped` is `total - executed`, a JS subtraction that may go negative)
and stay `0` otherwise; `duration` is the sum of the parsed per-test
durations. -/
def parseTrxReport (d : TrxData) : NormReport :=
  let counts : Int × Int × Int × Int :=
    match d.counters with
    | some c => ((c.total : Int), (c.passed : Int), (c.failed : Int),
                 (c.total : Int) - (c.executed : Int))
    | none => (0, 0, 0, 0)
  { summary :=
      { total := counts.1
        passed := counts.2.1
        failed := counts.2.2.1
        error := 0
        skipped := counts.2.2.2
        duration := d.results.foldl
          (fun acc u => nanAdd acc (parseDuration u.durationStr)) (some 0) }
    tests := d.results.map mapTrxResult
    environment := []
    created := none }

/-! ## Event stream and execution pipelines -/

/-- A streamed event, one constructor per distinct `sendEvent(type, ...)`
call site family in server.js.  Subprocess output chunks are sent with
type `'pip'` (provisioning commands) or `'test'` (the test runner). -/
inductive Event where
  | status (msg : String)
  | pipLog (chunk : String)
  | testLog (chunk : String)
  | reportEvt (r : NormReport)
  | complete (exitCode : Int)
  | errorEvt (msg : String)
deriving DecidableEq, Repr

/-- The literal `type` string written on the wire for an event
(server.js:924-926 `sendEvent`). -/
def Event.kindString : Event → String
  | .status _ => "status"
  | .pipLog _ => "pip"
  | .testLog _ => "test"
  | .reportEvt _ => "report"
  | .complete _ => "complete"
  | .errorEvt _ => "error"

/-- Outcome of one spawned subprocess: it either fired `close` with an
exit code, or fired `error` (spawn failure). -/
inductive ProcResult where
  | closed (code : Int)
  | spawnErr (msg : String)
deriving DecidableEq, Repr

/-- One output chunk of a subprocess: which stream it came from and its
text. -/
structure Chunk where
  isStderr : Bool
  text : String
deriving DecidableEq, Repr

/-- Concatenation of a subprocess's stdout chunks (the `pipOutput`
accumulator). -/
def stdoutConcat (cs : List Chunk) : String :=
  (cs.filter (fun c => !c.isStderr)).foldl (fun a c => a ++ c.text) ""

/-- Concatenation of a subprocess's stderr chunks (the `pipError`
accumulator). -/
def stderrConcat (cs : List Chunk) : String :=
  (cs.filter (fun c => c.isStderr)).foldl (fun a c => a ++ c.text) ""

/-- Events produced by forwarding each chunk of a provisioning subprocess
(`sendEvent('pip', data.toString())`). -/
def pipChunkEvents (cs : List Chunk) : List Event :=
  cs.map (fun c => Event.pipLog c.text)

/-- Events produced by forwarding each chunk of the test subprocess
(`sendEvent('test', data.toString())`). -/
def testChunkEvents (cs : List Chunk) : List Event :=
  cs.map (fun c => Event.testLog c.text)

/-- The environment's responses to the Python pipeline: the outcome and
output of each subprocess it spawns, and the report artifact the close
handler manages to read and parse (`none`: missing or malformed). -/
structure PyRunInput where
  venvResult : ProcResult
  pipResult : ProcResult
  pipChunks : List Chunk
  playwrightResult : ProcResult
  playwrightChunks : List Chunk
  pytestResult : ProcResult
  pytestChunks : List Chunk
  reportArtifact : Option PytestReport
deriving DecidableEq, Repr

/-- `runPythonTests` (server.js:951-1120) as a trace function: the events
sent before control returns, and `some msg` when the function throws /
rejects with that message (venv, pip: fatal; playwright install: always
resolves; pytest close: report event if the artifact parsed, then
`complete` with the exit code; pytest spawn error: an `error` event and a
normal return). -/
def runPythonTests (browser : String) (headed : Bool) (inp : PyRunInput) :
    List Event × Option String :=
  let e1 := [Event.status "Creating virtual environment..."]
  match inp.venvResult with
  | .spawnErr m => (e1, some m)
  | .closed c =>
    if c ≠ 0 then (e1, some ("Failed to create venv with code " ++ toString c))
    else
      let e2 := e1 ++ [Event.status "Installing dependencies..."] ++
        pipChunkEvents inp.pipChunks
      match inp.pipResult with
      | .spawnErr m => (e2, some m)
      | .closed c2 =>
        if c2 ≠ 0 then
          (e2, some ("pip install failed with code " ++ toString c2 ++ ": " ++
            jsStrOr (stderrConcat inp.pipChunks) (stdoutConcat inp.pipChunks)))
        else
          let e3 := e2 ++
            [Event.status ("Installing Playwright " ++ browser ++ " browser...")] ++
            pipChunkEvents inp.playwrightChunks
          let e4 := e3 ++
            [Event.status ("Running tests on " ++ browser ++
              (if headed then " (headed)" else "") ++ "...")] ++
            testChunkEvents inp.pytestChunks
          match inp.pytestResult with
          | .spawnErr m => (e4 ++ [Event.errorEvt m], none)
          | .closed c3 =>
            let rep := match inp.reportArtifact with
              | some r => [Event.reportEvt (normalizePytestReport r)]
              | none => []
            (e4 ++ rep ++ [Event.complete c3], none)

/-- The environment's responses to the C# pipeline. -/
structure CsRunInput where
  restoreResult : ProcResult
  restoreChunks : List Chunk
  buildResult : ProcResult
  buildChunks : List Chunk
  playwrightResult : ProcResult
  playwrightChunks : List Chunk
  testResult : ProcResult
  testChunks : List Chunk
  trxArtifact : Option TrxData
deriving DecidableEq, Repr

/-- `runCSharpTests` (server.js:1123-1279) as a trace function, also
recording which subprocesses were spawned, in order.  The `.csproj` lookup
(`files.find(f => f.name.endsWith('.csproj'))`, case-sensitive, name only)
throws before anything is sent or spawned when it fails; restore and build
are fatal on non-zero exit; playwright install always resolves; the test
close handler sends a report only when a TRX file was found and read. -/
def runCSharpTests (files : List FileEntry) (browser : String) (headed : Bool)
    (inp : CsRunInput) : List Event × List String × Option String :=
  match files.find? (fun f => strEndsWith f.name ".csproj") with
  | none => ([], [], some "No .csproj file found in C# project")
  | some _ =>
    let e1 := [Event.status "Restoring NuGet packages..."] ++
      pipChunkEvents inp.restoreChunks
    let s1 := ["dotnet restore"]
    match inp.restoreResult with
    | .spawnErr m => (e1, s1, some m)
    | .closed c =>
      if c ≠ 0 then (e1, s1, some ("dotnet restore failed with code " ++ toString c))
      else
        let e2 := e1 ++ [Event.status "Building project..."] ++
          pipChunkEvents inp.buildChunks
        let s2 := s1 ++ ["dotnet build"]
        match inp.buildResult with
        | .spawnErr m => (e2, s2, some m)
        | .closed c2 =>
          if c2 ≠ 0 then
            (e2, s2, some ("dotnet build failed with code " ++ toString c2))
          else
            let e3 := e2 ++
              [Event.status ("Installing Playwright " ++ browser ++ " browser...")] ++
              pipChunkEvents inp.playwrightChunks
            let s3 := s2 ++ ["playwright install"]
            let e4 := e3 ++
              [Event.status ("Running tests on " ++ browser ++
                (if headed then " (headed)" else "") ++ "...")] ++
              testChunkEvents inp.testChunks
            let s4 := s3 ++ ["dotnet test"]
            match inp.testResult with
            | .spawnErr m => (e4 ++ [Event.errorEvt m], s4, none)
            | .closed c3 =>
              let rep := match inp.trxArtifact with
                | some d => [Event.reportEvt (parseTrxReport d)]
                | none => []
              (e4 ++ rep ++ [Event.complete c3], s4, none)

/-- `runTestsRoutePython`: the `/api/run-tests` handler around the Python
pipeline (server.js:863-948).  SSE headers are already sent when the
pipeline runs, so a thrown pipeline error is written as an `error` event
(server.js:944). -/
def runTestsRoutePython (browser : String) (headed : Bool) (inp : PyRunInput) :
    List Event :=
  match runPythonTests browser headed inp with
  | (evts, none) => evts
  | (evts, some m) => evts ++ [Event.errorEvt m]

/-- `runTestsRouteCSharp`: the `/api/run-tests` handler around the C#
pipeline, forgetting the spawn bookkeeping. -/
def runTestsRouteCSharp (files : List FileEntry) (browser : String)
    (headed : Bool) (inp : CsRunInput) : List Event :=
  match runCSharpTests files browser headed inp with
  | (evts, _, none) => evts
  | (evts, _, some m) => evts ++ [Event.errorEvt m]

/-- The full `/api/run-tests` dispatch (server.js:863-948): validate the
browser (invalid values fall back to `chromium`), detect the language, and
run the matching pipeline. -/
def runTestsRoute (files : List FileEntry) (browser : String) (headed : Bool)
    (py : PyRunInput) (cs : CsRunInput) : List Event :=
  let selectedBrowser :=
    if browser = "chromium" ∨ browser = "firefox" ∨ browser = "webkit" then browser
    else "chromium"
  if detectLanguage files = "csharp" then
    runTestsRouteCSharp files selectedBrowser headed cs
  else runTestsRoutePython selectedBrowser headed py

/-- Is this event a `report` event? -/
def isReportEvt : Event → Bool
  | .reportEvt _ => true
  | _ => false

/-- Is this event a `complete` event? -/
def isCompleteEvt : Event → Bool
  | .complete _ => true
  | _ => false

/-- Is this event an `error` event? -/
def isErrorEvt : Event → Bool
  | .errorEvt _ => true
  | _ => false

/-! ## Helper lemmas -/

theorem isPrefixOfB_refl (l : List Char) : isPrefixOfB l l = true := by
  induction l with
  | nil => rfl
  | cons a as ih => simp [isPrefixOfB, ih]

theorem isPrefixOfB_nil (l : List Char) : isPrefixOfB [] l = true := rfl

theorem splitOnChar_of_not_mem (c : Char) (l : List Char) (h : c ∉ l) :
    splitOnChar c l = [l] := by
  induction l with
  | nil => rfl
  | cons x xs ih =>
    simp only [List.mem_cons, not_or] at h
    rw [splitOnChar, if_neg (by simpa using Ne.symm h.1), ih h.2]

theorem splitOnChar_append (c : Char) (l₁ l₂ : List Char) (h : c ∉ l₁) :
    splitOnChar c (l₁ ++ c :: l₂) = l₁ :: splitOnChar c l₂ := by
  induction l₁ with
  | nil => simp [splitOnChar]
  | cons x xs ih =>
    simp only [List.mem_cons, not_or] at h
    rw [List.cons_append, splitOnChar, if_neg (by simpa using Ne.symm h.1), ih h.2]

/-! ## Claims -/

/-- C6: `detectLanguage` is a deterministic total function of the file
list: it always returns exactly one of the two families; any C# marker
(`.csproj`/`.cs`) takes precedence over any Python marker; and when no C#
marker matches — in particular when nothing matches at all — the result is
the Python default. -/
theorem detectLanguage_total_priority_default (files : List FileEntry) :
    (detectLanguage files = "csharp" ∨ detectLanguage files = "python") ∧
    (files.any fileHasCSharpMarker = true → detectLanguage files = "csharp") ∧
    (files.any fileHasCSharpMarker = false →
      files.any fileHasPythonMarker = false → detectLanguage files = "python") ∧
    (files.any fileHasCSharpMarker = false → detectLanguage files = "python") := by
  by_cases h : files.any fileHasCSharpMarker = true
  · simp [detectLanguage, h]
  · simp only [Bool.not_eq_true] at h
    simp [detectLanguage, h]

/-- Witness for C6 at concrete manifests: a mixed C#/Python manifest is
detected as C#, and a manifest with no marker at all falls back to
Python. -/
theorem detectLanguage_total_priority_default_witness :
    detectLanguage [⟨"Tests.cs", "", "x"⟩, ⟨"conftest.py", "", "y"⟩] = "csharp" ∧
    detectLanguage [⟨"readme.md", "docs", "z"⟩] = "python" :=
  ⟨(detectLanguage_total_priority_default _).2.1 (by decide),
   (detectLanguage_total_priority_default _).2.2.1 (by decide) (by decide)⟩

/-- C8: `parseDuration` maps an `HH:MM:SS.fraction` string to
`hours*3600 + minutes*60 + seconds` seconds, and in particular
`parseDuration("00:00:01.5000000")` is exactly `1.5`. -/
theorem parseDuration_hms :
    (∀ (hs ms ss : String) (h m sec : Rat),
      ':' ∉ hs.data → ':' ∉ ms.data → ':' ∉ ss.data →
      parseFloatL hs.data = some h → parseFloatL ms.data = some m →
      parseFloatL ss.data = some sec →
      parseDuration (hs ++ ":" ++ ms ++ ":" ++ ss) =
        some (h * 3600 + m * 60 + sec)) ∧
    parseDuration "00:00:01.5000000" = some (3 / 2 : Rat) := by
  constructor
  · intro hs ms ss h m sec h1 h2 h3 p1 p2 p3
    have hc : (":" : String).data = [':'] := rfl
    have hdata : (hs ++ ":" ++ ms ++ ":" ++ ss).data =
        hs.data ++ ':' :: (ms.data ++ ':' :: ss.data) := by
      simp [String.data_append, hc]
    rw [parseDuration, hdata, splitOnChar_append _ _ _ h1,
      splitOnChar_append _ _ _ h2, splitOnChar_of_not_mem _ _ h3]
    simp [p1, p2, p3]
  · have hs : splitOnChar ':' ("00:00:01.5000000" : String).data =
        [['0','0'], ['0','0'], ['0','1','.','5','0','0','0','0','0','0']] := by
      decide
    have f1 : parseFloatL ['0','0'] = some 0 := by
      have h1 : splitOnChar '.' ['0','0'] = [['0','0']] := by decide
      have h2 : digitsVal ['0','0'] = some 0 := by decide
      unfold parseFloatL
      rw [h1]
      simp only [h2, Option.map_some]
      norm_num
    have f2 : parseFloatL ['0','1','.','5','0','0','0','0','0','0'] =
        some (3 / 2 : Rat) := by
      have h1 : splitOnChar '.' ['0','1','.','5','0','0','0','0','0','0'] =
          [['0','1'], ['5','0','0','0','0','0','0']] := by decide
      have h2 : digitsVal ['0','1'] = some 1 := by decide
      have h3 : digitsVal ['5','0','0','0','0','0','0'] = some 5000000 := by
        decide
      unfold parseFloatL
      rw [h1]
      simp only [h2, h3]
      norm_num
    unfold parseDuration
    rw [hs]
    simp only [List.map_cons, List.map_nil, f1, f2]
    norm_num

/-- Witness for C8's general clause at a concrete duration string:
`"1:2:3"` parses to `1*3600 + 2*60 + 3` seconds. -/
theorem parseDuration_hms_witness :
    parseDuration ("1" ++ ":" ++ "2" ++ ":" ++ "3") =
      some ((1 : Rat) * 3600 + 2 * 60 + 3) := by
  have f1 : parseFloatL ("1" : String).data = some 1 := by
    have h1 : splitOnChar '.' ("1" : String).data = [['1']] := by decide
    have h2 : digitsVal ['1'] = some 1 := by decide
    unfold parseFloatL
    rw [h1]
    simp [h2]
  have f2 : parseFloatL ("2" : String).data = some 2 := by
    have h1 : splitOnChar '.' ("2" : String).data = [['2']] := by decide
    have h2 : digitsVal ['2'] = some 2 := by decide
    unfold parseFloatL
    rw [h1]
    simp [h2]
  have f3 : parseFloatL ("3" : String).data = some 3 := by
    have h1 : splitOnChar '.' ("3" : String).data = [['3']] := by decide
    have h2 : digitsVal ['3'] = some 3 := by decide
    unfold parseFloatL
    rw [h1]
    simp [h2]
  exact parseDuration_hms.1 "1" "2" "3" 1 2 3 (by decide) (by decide)
    (by decide) f1 f2 f3

theorem jsJoin_eq (a b : String) (ha : a ≠ "") (hb : b ≠ "") :
    jsJoin a b = a ++ "/" ++ b := by
  unfold jsJoin
  rw [if_neg ha, if_neg hb]

theorem str_append_slash_ne_empty (a b : String) : a ++ "/" ++ b ≠ "" := by
  intro h
  have := congrArg String.data h
  simp [String.data_append, show ("/" : String).data = ['/'] from rfl] at this

/-- C1: when a `FileEntry`'s name embeds path components, its (cleaned)
`path` is non-empty, and the two diverge — neither is a string prefix of
the other — the resolved relative path is the concatenation
`path / name-directory / trailing-file-name`: neither component is
discarded. -/
theorem resolveEntryPath_diverging_concat (name path : String)
    (hslash : strIncludes name "/" = true)
    (hcp : cleanPath path ≠ "")
    (hbase : nameBasePart name ≠ "")
    (h1 : strStartsWithB (nameDirPart name) (cleanPath path) = false)
    (h2 : strStartsWithB (cleanPath path) (nameDirPart name) = false) :
    resolveEntryPath name path =
      cleanPath path ++ "/" ++ nameDirPart name ++ "/" ++ nameBasePart name := by
  have hdir : nameDirPart name ≠ "" := by
    intro h
    rw [h] at h2
    simp [strStartsWithB, show ("" : String).data = [] from rfl,
      isPrefixOfB] at h2
  have hne : ((cleanPath path) == (nameDirPart name)) = false := by
    rcases hbe : (cleanPath path) == (nameDirPart name) with _ | _
    · rfl
    · rw [beq_iff_eq] at hbe
      rw [hbe, strStartsWithB, isPrefixOfB_refl] at h1
      exact absurd h1 (by simp)
  unfold resolveEntryPath
  simp only [hslash, if_true]
  rw [if_neg]
  · rw [jsJoin_eq _ _ hcp hdir,
      jsJoin_eq _ _ (str_append_slash_ne_empty _ _) hbase]
  · simp [hcp, hne, h1]

/-- Witness for C1: `name = "pages/base.py"` with `path = "tests"`
resolves to the concatenation of both path specifications. -/
theorem resolveEntryPath_diverging_concat_witness :
    resolveEntryPath "pages/base.py" "tests" =
      cleanPath "tests" ++ "/" ++ nameDirPart "pages/base.py" ++ "/" ++
        nameBasePart "pages/base.py" :=
  resolveEntryPath_diverging_concat "pages/base.py" "tests" (by decide)
    (by decide) (by decide) (by decide) (by decide)

/-- C2: when the pytest subprocess exits non-zero but the report artifact
parses, the pipeline still emits exactly one `report` event followed by a
`complete` event carrying that exit code; no `error` event occurs and no
other `complete` event precedes it. -/
theorem pytest_nonzero_exit_report_then_complete
    (browser : String) (headed : Bool) (inp : PyRunInput) (c : Int)
    (r : PytestReport)
    (hv : inp.venvResult = .closed 0) (hp : inp.pipResult = .closed 0)
    (ht : inp.pytestResult = .closed c) (hc : c ≠ 0)
    (hr : inp.reportArtifact = some r) :
    ∃ pre, runTestsRoutePython browser headed inp =
        pre ++ [Event.reportEvt (normalizePytestReport r), Event.complete c] ∧
      pre.countP isReportEvt = 0 ∧ pre.countP isErrorEvt = 0 ∧
      pre.countP isCompleteEvt = 0 := by
  rcases inp with ⟨v, p, pc, pw, pwc, t, tc, ra⟩
  simp only at hv hp ht hr
  subst hv hp ht hr
  refine ⟨[Event.status "Creating virtual environment...",
      Event.status "Installing dependencies..."] ++ pipChunkEvents pc ++
      [Event.status ("Installing Playwright " ++ browser ++ " browser...")] ++
      pipChunkEvents pwc ++
      [Event.status ("Running tests on " ++ browser ++
        (if headed then " (headed)" else "") ++ "...")] ++
      testChunkEvents tc, ?_, ?_, ?_, ?_⟩
  · simp [runTestsRoutePython, runPythonTests]
  · simp [List.countP_append, pipChunkEvents, testChunkEvents,
      List.countP_map, Function.comp_def, isReportEvt]
  · simp [List.countP_append, pipChunkEvents, testChunkEvents,
      List.countP_map, Function.comp_def, isErrorEvt]
  · simp [List.countP_append, pipChunkEvents, testChunkEvents,
      List.countP_map, Function.comp_def, isCompleteEvt]

/-- Witness for C2 at a concrete run: pytest exits `1`, the artifact
parses, and the trace ends `report` then `complete 1`. -/
theorem pytest_nonzero_exit_report_then_complete_witness :
    ∃ pre, runTestsRoutePython "chromium" false
        ⟨.closed 0, .closed 0, [], .closed 0, [], .closed 1, [],
          some ⟨none, none, none, none, none⟩⟩ =
        pre ++ [Event.reportEvt
          (normalizePytestReport ⟨none, none, none, none, none⟩),
          Event.complete 1] ∧
      pre.countP isReportEvt = 0 ∧ pre.countP isErrorEvt = 0 ∧
      pre.countP isCompleteEvt = 0 :=
  pytest_nonzero_exit_report_then_complete "chromium" false _ 1 _ rfl rfl rfl
    (by decide) rfl

/-- C3: when pip install exits non-zero, the run terminates with an
`error` event whose message carries the captured stderr (falling back to
stdout when stderr is empty); no `report` and no `complete` event is ever
emitted. -/
theorem pip_failure_error_no_report
    (browser : String) (headed : Bool) (inp : PyRunInput) (c : Int)
    (hv : inp.venvResult = .closed 0) (hp : inp.pipResult = .closed c)
    (hc : c ≠ 0) :
    ∃ pre,
      runTestsRoutePython browser headed inp =
        pre ++ [Event.errorEvt ("pip install failed with code " ++
          toString c ++ ": " ++
          jsStrOr (stderrConcat inp.pipChunks) (stdoutConcat inp.pipChunks))] ∧
      pre.countP isReportEvt = 0 ∧ pre.countP isErrorEvt = 0 ∧
      pre.countP isCompleteEvt = 0 := by
  rcases inp with ⟨v, p, pc, pw, pwc, t, tc, ra⟩
  simp only at hv hp
  subst hv hp
  refine ⟨[Event.status "Creating virtual environment...",
      Event.status "Installing dependencies..."] ++ pipChunkEvents pc,
      ?_, ?_, ?_, ?_⟩
  · simp [runTestsRoutePython, runPythonTests, hc]
  · simp [List.countP_append, pipChunkEvents, List.countP_map,
      Function.comp_def, isReportEvt]
  · simp [List.countP_append, pipChunkEvents, List.countP_map,
      Function.comp_def, isErrorEvt]
  · simp [List.countP_append, pipChunkEvents, List.countP_map,
      Function.comp_def, isCompleteEvt]

/-- Witness for C3 at a concrete run: pip exits `1` with stderr
`"boom"`; the single terminal event is the error carrying it. -/
theorem pip_failure_error_no_report_witness :
    ∃ pre,
      runTestsRoutePython "chromium" false
        ⟨.closed 0, .closed 1, [⟨true, "boom"⟩], .closed 0, [], .closed 0, [],
          none⟩ =
        pre ++ [Event.errorEvt ("pip install failed with code " ++
          toString (1 : Int) ++ ": " ++
          jsStrOr (stderrConcat [⟨true, "boom"⟩]) (stdoutConcat [⟨true, "boom"⟩]))] ∧
      pre.countP isReportEvt = 0 ∧ pre.countP isErrorEvt = 0 ∧
      pre.countP isCompleteEvt = 0 :=
  pip_failure_error_no_report "chromium" false _ 1 rfl rfl (by decide)

/-- C7: the playwright-install step is non-fatal in both pipelines: the
emitted trace does not depend on that step's outcome at all (non-zero
exit and spawn error included), and once provisioning succeeded the
pipeline always goes on to the test-execution stage. -/
theorem playwright_install_nonfatal
    (browser : String) (headed : Bool) (files : List FileEntry)
    (pin : PyRunInput) (cin : CsRunInput) (r r' : ProcResult) :
    (runPythonTests browser headed {pin with playwrightResult := r} =
      runPythonTests browser headed {pin with playwrightResult := r'}) ∧
    (pin.venvResult = .closed 0 → pin.pipResult = .closed 0 →
      Event.status ("Running tests on " ++ browser ++
        (if headed then " (headed)" else "") ++ "...") ∈
        (runPythonTests browser headed pin).1) ∧
    (runCSharpTests files browser headed {cin with playwrightResult := r} =
      runCSharpTests files browser headed {cin with playwrightResult := r'}) ∧
    ((files.find? (fun f => strEndsWith f.name ".csproj")).isSome →
      cin.restoreResult = .closed 0 → cin.buildResult = .closed 0 →
      Event.status ("Running tests on " ++ browser ++
        (if headed then " (headed)" else "") ++ "...") ∈
        (runCSharpTests files browser headed cin).1) := by
  refine ⟨?_, ?_, ?_, ?_⟩
  · rcases pin with ⟨v, p, pc, pw, pwc, t, tc, ra⟩
    rfl
  · intro hv hp
    rcases pin with ⟨v, p, pc, pw, pwc, t, tc, ra⟩
    simp only at hv hp
    subst hv hp
    cases t <;> simp [runPythonTests]
  · rcases cin with ⟨rr, rc, br, bc, pw, pwc, t, tc, trx⟩
    rfl
  · intro hfind hr hb
    rcases hf : files.find? (fun f => strEndsWith f.name ".csproj") with _ | f
    · rw [hf] at hfind
      simp at hfind
    rcases cin with ⟨rr, rc, br, bc, pw, pwc, t, tc, trx⟩
    simp only at hr hb
    subst hr hb
    cases t <;> simp [runCSharpTests, hf]

/-- Witness for C7: with provisioning succeeded and the playwright install
spawn-failing, the Python pipeline still reaches the test stage. -/
theorem playwright_install_nonfatal_witness :
    Event.status ("Running tests on " ++ "chromium" ++
      (if false then " (headed)" else "") ++ "...") ∈
      (runPythonTests "chromium" false
        ⟨.closed 0, .closed 0, [], .spawnErr "x", [], .closed 0, [],
          none⟩).1 :=
  (playwright_install_nonfatal "chromium" false []
    ⟨.closed 0, .closed 0, [], .spawnErr "x", [], .closed 0, [], none⟩
    ⟨.closed 0, [], .closed 0, [], .closed 0, [], .closed 0, [], none⟩
    (.closed 0) (.closed 0)).2.1 rfl rfl

/-- C10: a request detected as C# whose manifest has no file named
`*.csproj` terminates with the error event
`"No .csproj file found in C# project"` as its entire trace (hence no
`report` and no `complete` event), before any subprocess is spawned and
before anything else is emitted by the C# pipeline. -/
theorem csharp_missing_csproj_error_before_spawn
    (files : List FileEntry) (browser : String) (headed : Bool)
    (py : PyRunInput) (cs : CsRunInput)
    (hdet : detectLanguage files = "csharp")
    (hno : ∀ f ∈ files, strEndsWith f.name ".csproj" = false) :
    runTestsRoute files browser headed py cs =
      [Event.errorEvt "No .csproj file found in C# project"] ∧
    ∀ b', (runCSharpTests files b' headed cs).2.1 = [] ∧
      (runCSharpTests files b' headed cs).1 = [] := by
  have hfind : files.find? (fun f => strEndsWith f.name ".csproj") = none :=
    List.find?_eq_none.mpr (fun f hf => by simp [hno f hf])
  refine ⟨?_, fun b' => ?_⟩
  · simp [runTestsRoute, runTestsRouteCSharp, runCSharpTests, hdet, hfind]
  · simp [runCSharpTests, hfind]

/-- Witness for C10: one `.cs` file and no `.csproj`; the route's whole
trace is the single error event and the C# runner spawned nothing. -/
theorem csharp_missing_csproj_error_before_spawn_witness :
    runTestsRoute [⟨"Tests.cs", "", "x"⟩] "chromium" false
        ⟨.closed 0, .closed 0, [], .closed 0, [], .closed 0, [], none⟩
        ⟨.closed 0, [], .closed 0, [], .closed 0, [], .closed 0, [], none⟩ =
      [Event.errorEvt "No .csproj file found in C# project"] ∧
    ∀ b', (runCSharpTests [⟨"Tests.cs", "", "x"⟩] b' false
        ⟨.closed 0, [], .closed 0, [], .closed 0, [], .closed 0, [], none⟩).2.1
        = [] ∧
      (runCSharpTests [⟨"Tests.cs", "", "x"⟩] b' false
        ⟨.closed 0, [], .closed 0, [], .closed 0, [], .closed 0, [], none⟩).1
        = [] :=
  csharp_missing_csproj_error_before_spawn [⟨"Tests.cs", "", "x"⟩] "chromium"
    false _ _ (by decide) (by decide)

/-- C9 counterexample: a pip output chunk is emitted with wire kind
`"pip"`, which is not in the claimed kind set
`{status, log, report, complete, error}` (the code never uses `"log"`). -/
theorem event_kind_pip_not_log_cex :
    Event.pipLog "collecting..." ∈
      runTestsRoutePython "chromium" false
        ⟨.closed 0, .closed 0, [⟨false, "collecting..."⟩], .closed 0, [],
          .closed 0, [], none⟩ ∧
    (Event.pipLog "collecting...").kindString = "pip" ∧
    (Event.pipLog "collecting...").kindString ∉
      ["status", "log", "report", "complete", "error"] := by
  refine ⟨by decide, rfl, by decide⟩

/-- C9 as amended: every event of either pipeline's trace has wire kind in
exactly the set `{status, pip, test, report, complete, error}`, and each
raw test-runner output chunk is emitted as an event of kind `"test"`
(provisioning chunks analogously as kind `"pip"`). -/
theorem event_kinds_exhaustive
    (browser : String) (headed : Bool) (files : List FileEntry)
    (pin : PyRunInput) (cin : CsRunInput) :
    (∀ e ∈ runTestsRoutePython browser headed pin,
      e.kindString ∈ ["status", "pip", "test", "report", "complete", "error"]) ∧
    (∀ e ∈ runTestsRouteCSharp files browser headed cin,
      e.kindString ∈ ["status", "pip", "test", "report", "complete", "error"]) ∧
    (pin.venvResult = .closed 0 → pin.pipResult = .closed 0 →
      ∀ ch ∈ pin.pytestChunks,
        Event.testLog ch.text ∈ runTestsRoutePython browser headed pin ∧
        (Event.testLog ch.text).kindString = "test") := by
  refine ⟨fun e _ => ?_, fun e _ => ?_, ?_⟩
  · cases e <;> simp [Event.kindString]
  · cases e <;> simp [Event.kindString]
  · intro hv hp ch hch
    rcases pin with ⟨v, p, pc, pw, pwc, t, tc, ra⟩
    simp only at hv hp hch
    subst hv hp
    refine ⟨?_, rfl⟩
    have hmem : Event.testLog ch.text ∈
        testChunkEvents tc := List.mem_map_of_mem _ hch
    cases t <;> simp [runTestsRoutePython, runPythonTests,
      List.mem_append, hmem]

/-- Witness for C9's amended statement: a concrete pytest chunk appears in
the trace with kind `"test"`. -/
theorem event_kinds_exhaustive_witness :
    Event.testLog "1 passed" ∈
      runTestsRoutePython "chromium" false
        ⟨.closed 0, .closed 0, [], .closed 0, [], .closed 0,
          [⟨false, "1 passed"⟩], none⟩ ∧
    (Event.testLog "1 passed").kindString = "test" :=
  (event_kinds_exhaustive "chromium" false []
    ⟨.closed 0, .closed 0, [], .closed 0, [], .closed 0,
      [⟨false, "1 passed"⟩], none⟩
    ⟨.closed 0, [], .closed 0, [], .closed 0, [], .closed 0, [], none⟩).2.2
    rfl rfl ⟨false, "1 passed"⟩ (by decide)

/-- C4 counterexample: a parsed artifact with the aggregate `summary`
object absent but two per-test records normalizes to `total = 0` — the
counts are not recomputed from the per-test list. -/
theorem summary_absent_not_recomputed_cex :
    (normalizePytestReport ⟨none,
      some [⟨"t1", "passed", none, none, none⟩,
        ⟨"t2", "failed", none, none, none⟩], none, none, none⟩).summary.total
      = 0 ∧
    (normalizePytestReport ⟨none,
      some [⟨"t1", "passed", none, none, none⟩,
        ⟨"t2", "failed", none, none, none⟩], none, none, none⟩).tests.length
      = 2 ∧
    (0 : Int) ≠ 2 := by
  refine ⟨rfl, rfl, by decide⟩

/-- C4 as amended: normalized summary counts equal the artifact's own
aggregate fields when those are present, and default to zero — they are
not recomputed from the per-test list — when absent; on the TRX side the
counts come from the `Counters` attributes (with `skipped` derived as
`total - executed`) when the counters regex matched, and stay zero
otherwise. -/
theorem summary_counts_from_aggregates_or_zero
    (r : PytestReport) (d : TrxData) :
    (∀ s, r.summary = some s →
      (∀ n, s.total = some n → (normalizePytestReport r).summary.total = n) ∧
      (∀ n, s.passed = some n → (normalizePytestReport r).summary.passed = n) ∧
      (∀ n, s.failed = some n → (normalizePytestReport r).summary.failed = n) ∧
      (∀ n, s.skipped = some n →
        (normalizePytestReport r).summary.skipped = n)) ∧
    (r.summary = none →
      (normalizePytestReport r).summary.total = 0 ∧
      (normalizePytestReport r).summary.passed = 0 ∧
      (normalizePytestReport r).summary.failed = 0 ∧
      (normalizePytestReport r).summary.skipped = 0) ∧
    (∀ c, d.counters = some c →
      (parseTrxReport d).summary.total = c.total ∧
      (parseTrxReport d).summary.passed = c.passed ∧
      (parseTrxReport d).summary.failed = c.failed ∧
      (parseTrxReport d).summary.skipped =
        (c.total : Int) - (c.executed : Int)) ∧
    (d.counters = none →
      (parseTrxReport d).summary.total = 0 ∧
      (parseTrxReport d).summary.passed = 0 ∧
      (parseTrxReport d).summary.failed = 0 ∧
      (parseTrxReport d).summary.skipped = 0) := by
  refine ⟨fun s hs => ?_, fun hs => ?_, fun c hcnt => ?_, fun hcnt => ?_⟩
  · exact ⟨fun n hn => by simp [normalizePytestReport, hs, hn],
      fun n hn => by simp [normalizePytestReport, hs, hn],
      fun n hn => by simp [normalizePytestReport, hs, hn],
      fun n hn => by simp [normalizePytestReport, hs, hn]⟩
  · simp [normalizePytestReport, hs]
  · simp [parseTrxReport, hcnt]
  · simp [parseTrxReport, hcnt]

/-- Witness for C4's amended statement: present aggregates are copied
(JSON `total = 5`; TRX `total = 4`, `skipped = 4 - 3 = 1`). -/
theorem summary_counts_from_aggregates_or_zero_witness :
    (normalizePytestReport ⟨some ⟨some 5, some 3, some 2, some 0, some 0⟩,
      none, none, none, none⟩).summary.total = 5 ∧
    (parseTrxReport ⟨some ⟨4, 3, 2, 1, 0, 0, 0, 0, 0, 0, 0, 0, 0, 0, 0, 0⟩,
      []⟩).summary.skipped = (4 : Int) - (3 : Int) :=
  ⟨((summary_counts_from_aggregates_or_zero
      ⟨some ⟨some 5, some 3, some 2, some 0, some 0⟩, none, none, none, none⟩
      ⟨none, []⟩).1 _ rfl).1 5 rfl,
   ((summary_counts_from_aggregates_or_zero ⟨none, none, none, none, none⟩
      ⟨some ⟨4, 3, 2, 1, 0, 0, 0, 0, 0, 0, 0, 0, 0, 0, 0, 0⟩, []⟩).2.2.1 _
      rfl).2.2.2⟩

/-- C5 counterexample: with both phases present, a call-phase duration of
`0` (JS-falsy) makes the normalization fall back to the setup-phase
duration `0.5`, so the normalized duration is not the call-phase
duration. -/
theorem call_zero_duration_falls_back_cex :
    (mapPytestTest ⟨"t", "passed",
      some ⟨some (1 / 2), some "passed", none, none, none⟩,
      some ⟨some 0, some "passed", none, none, none⟩, none⟩).duration =
      some (1 / 2 : Rat) ∧
    (⟨some 0, some "passed", none, none, none⟩ : PytestPhase).duration =
      some 0 ∧
    some (1 / 2 : Rat) ≠ some (0 : Rat) := by
  refine ⟨by simp [mapPytestTest, jsNumFallback], rfl, by norm_num⟩

/-- C5 as amended: with both a setup and a call phase present, the
normalized duration equals the call-phase duration whenever that duration
is non-zero (a zero call duration falls back to the setup duration), and
the normalized error equals the call-phase `longrepr` whenever the call
phase carries a non-empty one. -/
theorem call_phase_preferred_when_truthy
    (t : PytestTest) (sp cp : PytestPhase)
    (hs : t.setup = some sp) (hc : t.call = some cp) :
    (∀ d : Rat, cp.duration = some d → d ≠ 0 →
      (mapPytestTest t).duration = some d) ∧
    (∀ m : String, cp.longrepr = some m → m ≠ "" →
      (mapPytestTest t).error = some m) := by
  constructor
  · intro d hd hdne
    simp [mapPytestTest, jsNumFallback, hc, hd, hdne]
  · intro m hm hmne
    simp [mapPytestTest, jsStrFallbackNull, hc, hm, hmne]

/-- Witness for C5's amended statement at a concrete test record with both
phases: call duration `2` and call longrepr `"AssertionError"` win. -/
theorem call_phase_preferred_when_truthy_witness :
    (mapPytestTest ⟨"t", "failed",
      some ⟨some (1 / 2), some "passed", none, none, none⟩,
      some ⟨some 2, some "failed", some "AssertionError", none, none⟩,
      none⟩).duration = some (2 : Rat) ∧
    (mapPytestTest ⟨"t", "failed",
      some ⟨some (1 / 2), some "passed", none, none, none⟩,
      some ⟨some 2, some "failed", some "AssertionError", none, none⟩,
      none⟩).error = some "AssertionError" :=
  ⟨(call_phase_preferred_when_truthy _ _ _ rfl rfl).1 2 rfl (by norm_num),
   (call_phase_preferred_when_truthy _ _ _ rfl rfl).2 "AssertionError" rfl
     (by decide)⟩
